import Mathlib

/-!
Shallow embedding of the financial-intelligence core of the repository
(`src/ml/clustering.py`, `src/ml/forecasting.py`, `src/ml/recommendations.py`)
and proofs about it.

Modelling conventions:
* Dates are day numbers (`Nat`); day `d` has Python weekday `d % 7`, with day 0
  a Monday, so `d % 7 < 5` means Mon-Fri exactly as `datetime.weekday() < 5`.
* Monetary amounts and balances are `Rat` (the code uses Python/NumPy floats;
  the claims under study are about control flow, ordering and exact defaults,
  not float rounding).
* Library square roots (used by `std`/`StandardScaler`) are a parameter
  `sq : Rat → Rat`, since no claim depends on the numeric value of a
  standard deviation.
* Fitted scikit-learn / darts / FAISS model objects are opaque: a persisted
  artifact is `Option M` (`none` = file absent, so loading raises
  `FileNotFoundError`), and the black-box numeric routine inside it is a
  function parameter.
* A Python function that can either return an `{"error": ...}` dict or raise
  an uncaught exception is embedded with a result type distinguishing the two.
-/

/-- A row of the `transactions` table as read by the ML layer
(`date`, `category`, `debit`, `credit`, `balance`). -/
structure Tx where
  date : Nat
  category : String
  debit : Rat
  credit : Rat
  balance : Rat
deriving DecidableEq, Repr

/-! ## clustering.py : feature extraction -/

/-- The fixed category vocabulary of `extract_features` / `_default_features`. -/
def categories : List String :=
  ["Market", "Transport", "Coffe", "Restuarant", "Phone", "Health", "Learning"]

/-- Python's `str.lower()` on the ASCII strings this code handles
(`String.toLower` restated over the character list so it evaluates in the
kernel). -/
def lowerStr (s : String) : String := String.mk (s.data.map Char.toLower)

/-- Feature key for a category: `f'spending_{cat.lower()}'`. -/
def spendKey (c : String) : String := "spending_" ++ lowerStr c

/-- Embedding of `_default_features`: the fixed vector for users with no transactions. -/
def default_features : List (String × Rat) :=
  [("recency", 365), ("frequency", 0), ("monetary", 0),
   ("avg_transaction", 0), ("balance_std", 0), ("weekday_ratio", 1/2)]
  ++ categories.map (fun c => (spendKey c, 0))

/-- Latest transaction date (`df['date'].max()`); only used on nonempty input. -/
def maxDate (txs : List Tx) : Nat := (txs.map Tx.date).foldr max 0

/-- Total debit in the rows whose category equals `c`
(`df.groupby('category')['debit'].sum()` looked up at `c`). -/
def categorySpending (txs : List Tx) (c : String) : Rat :=
  ((txs.filter (fun t => t.category = c)).map Tx.debit).sum

/-- Sample mean of a list of rationals. -/
def listMean (l : List Rat) : Rat := l.sum / l.length

/-- Pandas sample variance (ddof = 1); the code takes `sq` of this for `std()`. -/
def sampleVar (l : List Rat) : Rat :=
  ((l.map (fun x => (x - listMean l) ^ 2)).sum) / (l.length - 1 : Nat)

/-- Embedding of `extract_features(user_id, db)`: RFM and behavioral features of the user's
transaction list. `sq` is the library square root (for `std`), `now` the day
number of `pd.Timestamp.now()`. Returned as the association list of
`(feature name, value)` pairs in Python dict insertion order. -/
def extract_features (sq : Rat → Rat) (now : Nat) (txs : List Tx) :
    List (String × Rat) :=
  if txs = [] then default_features
  else
    let recency : Rat := ((now : Int) - (maxDate txs : Int) : Int)
    let frequency : Rat := txs.length
    let monetary : Rat := (txs.map Tx.debit).sum
    let total_spending : Rat := monetary
    let spending_profile : List (String × Rat) :=
      categories.map (fun c =>
        (spendKey c,
         if total_spending > 0 then categorySpending txs c / total_spending
         else 0))
    let weekday_spending : Rat :=
      ((txs.filter (fun t => t.date % 7 < 5)).map Tx.debit).sum
    let weekend_spending : Rat :=
      ((txs.filter (fun t => ¬ t.date % 7 < 5)).map Tx.debit).sum
    let weekday_ratio : Rat :=
      if weekday_spending + weekend_spending > 0 then
        weekday_spending / (weekday_spending + weekend_spending)
      else 1/2
    let avg_transaction : Rat := monetary / txs.length
    let balance_std : Rat :=
      if txs.length > 1 then sq (sampleVar (txs.map Tx.balance)) else 0
    [("recency", recency), ("frequency", frequency), ("monetary", monetary),
     ("avg_transaction", avg_transaction), ("balance_std", balance_std),
     ("weekday_ratio", weekday_ratio)]
    ++ spending_profile

/-! ## clustering.py : cluster table, prediction -/

/-- The dict `self.cluster_names`, integer-keyed. -/
def cluster_names (i : Int) : Option String :=
  List.lookup i
    [(0, "Frugal Savers"), (1, "Average Spenders"),
     (2, "High-Value Transactors"), (3, "New/Infrequent Users")]

/-- The dict `self.cluster_descriptions`, integer-keyed. -/
def cluster_descriptions (i : Int) : Option String :=
  List.lookup i
    [(0, "Conservative spenders who prioritize savings and make careful financial decisions."),
     (1, "Moderate spenders with balanced financial habits and regular transaction patterns."),
     (2, "High-volume transactors with significant spending power and frequent activity."),
     (3, "New customers or infrequent users with limited transaction history.")]

/-- Embedding of `get_cluster_info(cluster_id)`: name and description with `.get` defaults. -/
def get_cluster_info (i : Int) : String × String :=
  ((cluster_names i).getD "Unknown",
   (cluster_descriptions i).getD "No description available")

/-- Embedding of `predict_cluster(user_id, db)`. The persisted artifact
`ml_models/cluster_model.joblib` is `model : Option (List Rat → Int)`: `some f`
bundles the fitted scaler's `transform` composed with `kmeans.predict`;
`none` means the file is absent, so `joblib.load` raises `FileNotFoundError`
before anything else in the `try` block runs and the handler returns 3. -/
def predict_cluster (model : Option (List Rat → Int))
    (features : List (String × Rat)) : Int :=
  match model with
  | some f => f (features.map Prod.snd)
  | none => 3

/-! ## clustering.py : training -/

/-- Per-user input to `train_cluster_model` (a user with role "customer" and
their transactions, as fetched from the DB). -/
structure UserRec where
  id : Nat
  txs : List Tx
deriving DecidableEq, Repr

/-- Result of a Python call that either returns a success value, returns an
`{"error": msg}` dict, or raises an uncaught exception. -/
inductive PyResult (α : Type) where
  | ok (a : α)
  | errDict (msg : String)
  | raised (msg : String)
deriving DecidableEq, Repr

/-- The success dict of `train_cluster_model`. -/
structure TrainClusterOut where
  silhouette_score : Rat
  n_clusters : Nat
  n_users : Nat
deriving DecidableEq, Repr

/-- Column `j` of a row-major matrix. -/
def column (rows : List (List Rat)) (j : Nat) : List Rat :=
  rows.map (fun r => r.getD j 0)

/-- The `StandardScaler` per-column parameters: the column mean and the
population standard deviation, with sklearn's zero-variance guard (`scale_`
entries of 0 are replaced by 1). `sq` is the library square root. -/
def scaleParams (sq : Rat → Rat) (col : List Rat) : Rat × Rat :=
  let m := listMean col
  let s := sq ((col.map (fun x => (x - m) ^ 2)).sum / (col.length : Rat))
  (m, if s = 0 then 1 else s)

/-- Embedding of `self.scaler.fit_transform(X)`: standardize every entry by its column's
mean and scale. The row count is preserved. -/
def fit_transform (sq : Rat → Rat) (rows : List (List Rat)) : List (List Rat) :=
  rows.map (fun r => (List.range r.length).map (fun j =>
    let p := scaleParams sq (column rows j)
    (r.getD j 0 - p.1) / p.2))

/-- Embedding of `KMeans(n_clusters=4).fit_predict(X)`. scikit-learn raises
`ValueError: n_samples=... should be >= n_clusters=4` when there are fewer
samples than clusters; otherwise it returns one label per row, computed by the
(seeded, deterministic, but numerically opaque) Lloyd iteration `labelsFn`. -/
def kmeans_fit_predict (labelsFn : List (List Rat) → List Nat)
    (X : List (List Rat)) : Except String (List Nat) :=
  if X.length < 4 then .error "n_samples should be >= n_clusters=4"
  else .ok (labelsFn X)

/-- Embedding of `silhouette_score(X, labels)`. scikit-learn raises a `ValueError` unless
the number of distinct labels is between 2 and `n_samples - 1`; otherwise the
mean silhouette coefficient is the opaque numeric routine `silFn`. -/
def silhouette_score_call (silFn : List (List Rat) → List Nat → Rat)
    (X : List (List Rat)) (labels : List Nat) : Except String Rat :=
  let k := labels.dedup.length
  if 2 ≤ k ∧ k ≤ X.length - 1 then .ok (silFn X labels)
  else .error "Number of labels is not valid"

/-- Embedding of `train_cluster_model(db)`: extract features for every customer, return the
`{"error": ...}` dict when there are none, else scale, run KMeans, compute the
silhouette score and return the summary dict. Exceptions raised by the two
sklearn calls are not caught anywhere in the function, so they propagate as
`PyResult.raised`. (Artifact saving and DB writes are side effects the claims
do not touch.) -/
def train_cluster_model (sq : Rat → Rat) (now : Nat)
    (labelsFn : List (List Rat) → List Nat)
    (silFn : List (List Rat) → List Nat → Rat)
    (users : List UserRec) : PyResult TrainClusterOut :=
  let features_list := users.map (fun u =>
    (extract_features sq now u.txs).map Prod.snd)
  if features_list.isEmpty then .errDict "No customer data available"
  else
    let Xscaled := fit_transform sq features_list
    match kmeans_fit_predict labelsFn Xscaled with
    | .error e => .raised e
    | .ok labels =>
      match silhouette_score_call silFn Xscaled labels with
      | .error e => .raised e
      | .ok s => .ok ⟨s, labels.dedup.length, users.length⟩

/-! ## forecasting.py : time-series preparation and training -/

/-- Earliest transaction date (`daily_balance.index.min()`); only meaningful
on nonempty input. -/
def minDate (txs : List Tx) : Nat := (txs.map Tx.date).foldr min (maxDate txs)

/-- Number of calendar days in the inclusive span from the first to the last
transaction date (0 for an empty list). After reindexing over the complete
date range this is `len(daily_balance)`. -/
def spanDays (txs : List Tx) : Nat :=
  if txs = [] then 0 else maxDate txs + 1 - minDate txs

/-- Balance of the last row of a given day (`groupby('date')['balance'].last()`;
the DB query orders rows by date with a stable sort, so within a day the input
order is kept). -/
def lastBalanceOn (txs : List Tx) (d : Nat) : Option Rat :=
  ((txs.filter (fun t => t.date = d)).map Tx.balance).getLast?

/-- Forward-filled daily balances for `n` days starting at day `d`, carrying
`prev` into days with no transaction (`reindex` + `fillna(method='ffill')`). -/
def ffillFrom (txs : List Tx) : Nat → Rat → Nat → List Rat
  | _, _, 0 => []
  | d, prev, n + 1 =>
    let b := (lastBalanceOn txs d).getD prev
    b :: ffillFrom txs (d + 1) b n

/-- Embedding of `prepare_time_series(user_id, db)`: `None` when the user has no
transactions, else the gap-free daily end-of-day balance series over the full
observed date span. -/
def prepare_time_series (txs : List Tx) : Option (List Rat) :=
  if txs = [] then none
  else some (ffillFrom txs (minDate txs) 0 (spanDays txs))

/-- Outcome of `train_forecast_model`: an `{"error": ...}` dict or the success
dict (whose `data_points` field is the series length); on success the fitted
model is persisted as `ml_models/forecast_user_{user_id}.pkl`. -/
inductive FCTrain where
  | errDict (msg : String)
  | success (data_points : Nat)
deriving DecidableEq, Repr

/-- The message of the `ValueError` raised by statsmodels' Holt-Winters
initialization when the series is shorter than two full seasonal cycles. -/
def seasonal_fit_error : String :=
  "Cannot compute initial seasonals using heuristic method with less than two full seasonal cycles in the data."

/-- Outcome of `ExponentialSmoothing().fit(ts)`. The darts constructor
defaults to additive trend and additive seasonality, with `seasonal_periods`
inferred as 7 from the daily index, and statsmodels' heuristic seasonal
initialization deterministically raises its `ValueError` for any series
shorter than two full seasonal cycles (14 daily points). On longer series the
fit is an opaque numeric routine: `fitErr = some e` stands for it (or the
save) raising exception `e`, `fitErr = none` for a clean fit. -/
def darts_fit (fitErr : Option String) (s : List Rat) : Option String :=
  if s.length < 14 then some seasonal_fit_error else fitErr

/-- Embedding of `train_forecast_model(user_id, db)`. Exceptions inside the
`try` block (the darts fit, including the deterministic under-14-points
seasonal `ValueError`, and the save) are caught and converted to the
`{"error": "Training failed: ..."}` dict. -/
def train_forecast_model (fitErr : Option String) (txs : List Tx) : FCTrain :=
  match prepare_time_series txs with
  | none => .errDict "Insufficient data for forecasting"
  | some s =>
    if s.length < 7 then .errDict "Insufficient data for forecasting"
    else
      match darts_fit fitErr s with
      | some e => .errDict ("Training failed: " ++ e)
      | none => .success s.length

/-! ## forecasting.py : forecast generation and summary -/

/-- One sentence of the generated summary, with its numeric payload kept
symbolic (the Python code interpolates these numbers into fixed English
template strings; the claims are about which sentence appears). -/
inductive SummaryPart where
  | projectedDecrease (absChange absPercent : Rat)
  | criticalWarning (days : Nat)
  | lowCaution (days : Nat)
  | stableAbove1000
  | projectedIncrease (change percent : Rat)
  | positiveTrend
deriving DecidableEq, Repr

/-- The `for i, balance in enumerate(...)` loop of
`_generate_forecast_summary`: first (1-based) day with balance below 1000 and
first with balance below 500, each recorded only while still `None`. -/
def scanThresholdsAux : List Rat → Nat → Option Nat → Option Nat →
    Option Nat × Option Nat
  | [], _, low, crit => (low, crit)
  | b :: rest, i, low, crit =>
    scanThresholdsAux rest (i + 1)
      (if b < 1000 ∧ low = none then some (i + 1) else low)
      (if b < 500 ∧ crit = none then some (i + 1) else crit)

/-- The pair `(low_balance_days, critical_balance_days)` after the scan loop. -/
def scanThresholds (fs : List Rat) : Option Nat × Option Nat :=
  scanThresholdsAux fs 0 none none

/-- Embedding of `_generate_forecast_summary(current_balance, final_balance, forecast_df,
trend)` as the list of sentences it joins. -/
def generate_forecast_summary (current final : Rat) (forecast : List Rat)
    (trend : String) : List SummaryPart :=
  let balance_change := final - current
  let change_percent :=
    if current ≠ 0 then balance_change / current * 100 else 0
  let st := scanThresholds forecast
  if trend = "decreasing" then
    SummaryPart.projectedDecrease |balance_change| |change_percent| ::
      (match st.2 with
       | some d => [SummaryPart.criticalWarning d]
       | none =>
         match st.1 with
         | some d => [SummaryPart.lowCaution d]
         | none => [SummaryPart.stableAbove1000])
  else
    [SummaryPart.projectedIncrease balance_change change_percent,
     SummaryPart.positiveTrend]

/-- Trend classification of `generate_forecast` (line
`trend = "increasing" if final_balance > current_balance else "decreasing"`). -/
def trendOf (current final : Rat) : String :=
  if final > current then "increasing" else "decreasing"

/-- Outcome of `generate_forecast`: the two structured error dicts, a caught
generic exception, or the forecast payload (dates and float rounding of the
response dict are formatting, not modelled). -/
inductive FCGen where
  | noModel
  | noData
  | failed (msg : String)
  | ok (current predicted : Rat) (trend : String) (summary : List SummaryPart)
      (values : List Rat)
deriving DecidableEq, Repr

/-- Embedding of `generate_forecast(user_id, db, days)`. The persisted per-user model is
`model : Option (Nat → List Rat)`: `none` means
`ml_models/forecast_user_{user_id}.pkl` is absent, so `open` raises
`FileNotFoundError` as the first statement of the `try` block and the handler
returns `{"error": "Forecast model not trained for this user"}` (here
`FCGen.noModel`); `some predict` is the unpickled model, `predict n` its
`n`-day forecast. -/
def generate_forecast (model : Option (Nat → List Rat)) (txs : List Tx)
    (days : Nat) : FCGen :=
  match model with
  | none => FCGen.noModel
  | some predict =>
    match prepare_time_series txs with
    | none => FCGen.noData
    | some series =>
      let forecast := predict days
      match series.getLast?, forecast.getLast? with
      | some current, some final =>
        let trend := trendOf current final
        FCGen.ok current final trend
          (generate_forecast_summary current final forecast trend) forecast
      | _, _ => FCGen.failed "Forecast generation failed: index out of range"

/-! ## recommendations.py : rule filter and recommendation pipeline -/

/-- A row of the `products` table as read by the rule filter and the response
builder; only the fields the embedded logic inspects are kept (`name`,
`category`, `description`, rates and fees are copied verbatim into the
response and never branched on). -/
structure Product where
  id : Nat
  tags : Option String
  target_cluster : Option String
deriving DecidableEq, Repr

/-- Whether `sub` occurs at the start of `l`. -/
def leadsWith : List Char → List Char → Bool
  | [], _ => true
  | _ :: _, [] => false
  | a :: as, b :: bs => a = b && leadsWith as bs

/-- Whether `sub` occurs contiguously somewhere in `l`. -/
def subOccurs (sub : List Char) : List Char → Bool
  | [] => leadsWith sub []
  | c :: rest => leadsWith sub (c :: rest) || subOccurs sub rest

/-- Python's `needle in hay` on strings: substring containment. -/
def strContains (hay needle : String) : Bool :=
  subOccurs needle.data hay.data

/-- The flag `needs_credit`: the forecast summary (lowercased) contains a
decline/warning keyword. -/
def needs_credit (forecast_summary : String) : Bool :=
  ["decreasing", "drop", "low", "warning"].any
    (fun w => strContains (lowerStr forecast_summary) w)

/-- The flag `has_surplus`: the forecast summary (lowercased) contains a
growth/stability keyword. -/
def has_surplus (forecast_summary : String) : Bool :=
  ["increasing", "positive", "stable"].any
    (fun w => strContains (lowerStr forecast_summary) w)

/-- Embedding of `any(tag in (product.tags or "").lower() for tag in kws)`. -/
def tagHas (p : Product) (kws : List String) : Bool :=
  kws.any (fun kw => strContains (lowerStr (p.tags.getD "")) kw)

/-- The loop body of `_filter_products_by_rules`: whether one product is
included. The forecast-based block is an `if needs_credit: ... elif
has_surplus: ...` chain; the cluster block and the target-cluster check are
separate `if`s that can each independently set `include = True`. -/
def includeProduct (user_cluster forecast_summary : String) (p : Product) :
    Bool :=
  let credit := needs_credit forecast_summary
  let surplus := has_surplus forecast_summary
  let byForecast :=
    if credit then tagHas p ["credit", "loan", "budgeting"]
    else if surplus then tagHas p ["investment", "savings", "high-yield"]
    else false
  let byCluster :=
    if user_cluster = "Frugal Savers" then
      tagHas p ["low-fee", "savings", "conservative"]
    else if user_cluster = "High-Value Transactors" then
      tagHas p ["premium", "rewards", "high-limit"]
    else if user_cluster = "Average Spenders" then
      tagHas p ["standard", "balanced", "everyday"]
    else false
  let byTarget :=
    match p.target_cluster with
    | some tc => tc ≠ "" && strContains (lowerStr tc) (lowerStr user_cluster)
    | none => false
  byForecast || byCluster || byTarget

/-- Embedding of `_filter_products_by_rules(products, user_cluster, forecast_summary)`. -/
def filter_products_by_rules (products : List Product)
    (user_cluster forecast_summary : String) : List Product :=
  products.filter (includeProduct user_cluster forecast_summary)

/-- Lines 92-97 of `get_recommendations`: the rule-filtered candidate set,
falling back to the whole catalog when the filter returns nothing. -/
def candidate_products (products : List Product)
    (user_cluster forecast_summary : String) : List Product :=
  let filtered := filter_products_by_rules products user_cluster
    forecast_summary
  if filtered.isEmpty then products else filtered

/-- The persisted FAISS index artifact `ml_models/product_index.faiss`,
abstracted by what the code extracts from it: the full-index scan for the
synthetic query, a ranked list of (similarity score, index) pairs with -1
marking an invalid slot. The position → product-id `mapping` lives in the
separate pickle `ml_models/product_mapping.pkl`. -/
structure FaissIndex where
  search : List (Rat × Int)

/-- The result-collection loop of `get_recommendations`: walk the ranked
hits, skip index -1, keep products in the rule-filtered id set, and `break`
once `top_k` have been appended (checked after each append, so `top_k = 0`
still yields the first hit, as in the Python). Each kept item is
`(product id, relevance score)`. -/
def collectRecs (mapping : Int → Nat) (allowed : List Nat) (top_k : Nat) :
    List (Rat × Int) → List (Nat × Rat)
  | [] => []
  | (score, idx) :: rest =>
    if idx = -1 then collectRecs mapping allowed top_k rest
    else
      let product_id := mapping idx
      if product_id ∈ allowed then
        if top_k ≤ 1 then [(product_id, score)]
        else (product_id, score) :: collectRecs mapping allowed (top_k - 1) rest
      else collectRecs mapping allowed top_k rest

/-- Embedding of `get_recommendations(user_id, user_cluster, forecast_summary, db, top_k)`.
Loading happens in two steps inside a `try` guarded only by
`except FileNotFoundError`. The first step, `faiss.read_index` on a missing
index file, raises `RuntimeError` (faiss translates its C++ `FaissException`
"could not open ... for reading"), which that handler does NOT catch, so the
call crashes (`PyResult.raised`). The second step, `open` on a missing
mapping pickle, raises `FileNotFoundError`, which is caught and returns `[]`.
`index = none` / `mapping = none` model the respective file being absent. -/
def get_recommendations (index : Option FaissIndex)
    (mapping : Option (Int → Nat))
    (products : List Product) (user_cluster forecast_summary : String)
    (top_k : Nat) : PyResult (List (Nat × Rat)) :=
  match index with
  | none =>
    .raised "RuntimeError: Error: could not open ml_models/product_index.faiss for reading: No such file or directory"
  | some ix =>
    match mapping with
    | none => .ok []
    | some m =>
      let filtered := candidate_products products user_cluster forecast_summary
      .ok (collectRecs m (filtered.map Product.id) top_k ix.search)

/-! ## Claims: clustering defaults and cluster table -/

/-- C1: for a user with an empty transaction list, `extract_features` returns
exactly the fixed default vector (recency 365, frequency 0, monetary 0,
average transaction 0, balance volatility 0, weekday ratio 1/2, every
per-category spending share 0), and its feature keys coincide with those
produced for any transaction list. -/
theorem extract_features_empty_default (sq : Rat → Rat) (now : Nat) :
    extract_features sq now [] =
      [("recency", 365), ("frequency", 0), ("monetary", 0),
       ("avg_transaction", 0), ("balance_std", 0), ("weekday_ratio", 1/2),
       ("spending_market", 0), ("spending_transport", 0),
       ("spending_coffe", 0), ("spending_restuarant", 0),
       ("spending_phone", 0), ("spending_health", 0),
       ("spending_learning", 0)] ∧
    ∀ txs : List Tx, (extract_features sq now txs).map Prod.fst =
      (extract_features sq now []).map Prod.fst := by
  constructor
  · have h : extract_features sq now [] = default_features := rfl
    have k1 : spendKey "Market" = "spending_market" := by decide
    have k2 : spendKey "Transport" = "spending_transport" := by decide
    have k3 : spendKey "Coffe" = "spending_coffe" := by decide
    have k4 : spendKey "Restuarant" = "spending_restuarant" := by decide
    have k5 : spendKey "Phone" = "spending_phone" := by decide
    have k6 : spendKey "Health" = "spending_health" := by decide
    have k7 : spendKey "Learning" = "spending_learning" := by decide
    rw [h]
    simp [default_features, categories, k1, k2, k3, k4, k5, k6, k7]
  · intro txs
    cases txs with
    | nil => rfl
    | cons t ts =>
      simp only [extract_features, default_features, if_neg (List.cons_ne_nil t ts),
        if_pos rfl, List.map_append, List.map_map]
      rfl

/-- C8: when no trained segmentation artifact exists (`cluster_model.joblib`
absent), `predict_cluster` returns the fixed default cluster index 3, whose
name in the static table is "New/Infrequent Users"; the `FileNotFoundError`
is caught, so this case never raises. -/
theorem predict_cluster_untrained_default (features : List (String × Rat)) :
    predict_cluster none features = 3 ∧
    cluster_names 3 = some "New/Infrequent Users" := by
  exact ⟨rfl, rfl⟩

/-- C10: `get_cluster_info` is total over `Int` indices: outside 0..3 it
returns the ("Unknown", "No description available") pair instead of raising. -/
theorem get_cluster_info_total (i : Int) :
    (0 ≤ i ∧ i ≤ 3) ∨
    get_cluster_info i = ("Unknown", "No description available") := by
  by_cases h : 0 ≤ i ∧ i ≤ 3
  · exact Or.inl h
  · right
    have h0 : (i == 0) = false := by simp; omega
    have h1 : (i == 1) = false := by simp; omega
    have h2 : (i == 2) = false := by simp; omega
    have h3 : (i == 3) = false := by simp; omega
    simp [get_cluster_info, cluster_names, cluster_descriptions, List.lookup,
      h0, h1, h2, h3]

/-! ## Claims: forecasting trend -/

/-- C6: the trend is classified "increasing" exactly when the final projected
balance strictly exceeds the current balance and "decreasing" otherwise (so
equal balances classify as "decreasing"), and every successful
`generate_forecast` result carries exactly this classification of its own
current and predicted balances. -/
theorem trend_classification (c f : Rat) :
    (trendOf c f = "increasing" ↔ f > c) ∧
    (trendOf c f = "decreasing" ↔ ¬ f > c) ∧
    trendOf c c = "decreasing" ∧
    (∀ (model : Option (Nat → List Rat)) (txs : List Tx) (days : Nat)
       (tr : String) (sm : List SummaryPart) (vs : List Rat),
       generate_forecast model txs days = FCGen.ok c f tr sm vs →
       tr = trendOf c f) := by
  refine ⟨?_, ?_, ?_, ?_⟩
  · unfold trendOf
    by_cases h : f > c <;> simp [h]
  · unfold trendOf
    by_cases h : f > c <;> simp [h]
  · unfold trendOf
    simp
  · intro model txs days tr sm vs h
    unfold generate_forecast at h
    cases model with
    | none => exact absurd h (by simp)
    | some predict =>
      cases hp : prepare_time_series txs with
      | none => rw [hp] at h; exact absurd h (by simp)
      | some series =>
        rw [hp] at h
        simp only at h
        cases hc : series.getLast? with
        | none => rw [hc] at h; exact absurd h (by simp)
        | some cur =>
          cases hf : (predict days).getLast? with
          | none => rw [hc, hf] at h; exact absurd h (by simp)
          | some fin =>
            rw [hc, hf] at h
            simp only [FCGen.ok.injEq] at h
            obtain ⟨h1, h2, h3, -, -⟩ := h
            subst h1; subst h2
            exact h3.symm

/-! ## Claims: recommendations, missing artifact -/

/-- C9: the claim (and the spec's graceful-degradation contract) is right and
the code is wrong. When the persisted recommendation index artifact is
absent, the first load statement `faiss.read_index` raises `RuntimeError`,
which the `except FileNotFoundError` handler — the code's own evidence of the
intended degrade-to-empty behavior — does not catch, so `get_recommendations`
crashes instead of returning the empty list. Only the narrower failure of a
present index with a missing mapping pickle reaches the intended `[]` path. -/
theorem get_recommendations_missing_index_raises
    (mapping : Option (Int → Nat)) (ix : FaissIndex) (products : List Product)
    (user_cluster forecast_summary : String) (top_k : Nat) :
    get_recommendations none mapping products user_cluster forecast_summary
        top_k =
      PyResult.raised "RuntimeError: Error: could not open ml_models/product_index.faiss for reading: No such file or directory" ∧
    get_recommendations (some ix) none products user_cluster forecast_summary
        top_k = PyResult.ok [] :=
  ⟨rfl, rfl⟩

/-! ## Helper notions and lemmas for the forecasting claims -/

/-- One-based position of the first list entry strictly below `t`. -/
def firstBelow (t : Rat) : List Rat → Option Nat
  | [] => none
  | b :: rest => if b < t then some 1 else (firstBelow t rest).map (· + 1)

theorem ffillFrom_length (txs : List Tx) :
    ∀ (n : Nat) (d : Nat) (prev : Rat), (ffillFrom txs d prev n).length = n := by
  intro n
  induction n with
  | zero => intro d prev; rfl
  | succ m ih => intro d prev; simp [ffillFrom, ih]

theorem train_forecast_span_lt_7_insufficient (fitErr : Option String)
    (txs : List Tx) (h : spanDays txs < 7) :
    train_forecast_model fitErr txs =
      FCTrain.errDict "Insufficient data for forecasting" := by
  by_cases he : txs = []
  · subst he; rfl
  · rw [train_forecast_model, prepare_time_series, if_neg he]
    simp only [ffillFrom_length]
    rw [if_pos h]

/-- C2 counterexample: a user with only 3 days of balance history (and, per
the training lifecycle, no persisted model, since training refuses to create
one below 7 days) gets the model-not-trained error from `generate_forecast`,
not the insufficient-data error. -/
theorem generate_forecast_sparse_user_model_error :
    spanDays [⟨0, "Market", 0, 0, 100⟩, ⟨1, "Market", 0, 0, 95⟩,
      ⟨2, "Market", 0, 0, 90⟩] = 3 ∧
    train_forecast_model none [⟨0, "Market", 0, 0, 100⟩, ⟨1, "Market", 0, 0, 95⟩,
      ⟨2, "Market", 0, 0, 90⟩] = FCTrain.errDict "Insufficient data for forecasting" ∧
    generate_forecast none [⟨0, "Market", 0, 0, 100⟩, ⟨1, "Market", 0, 0, 95⟩,
      ⟨2, "Market", 0, 0, 90⟩] 30 = FCGen.noModel := by
  refine ⟨by decide, by decide, rfl⟩

/-- C2 (amended): for a user whose balance history spans fewer than 7 days,
training refuses with the insufficient-data error and thus never persists a
model, so `generate_forecast` (whose first step is loading the per-user model
artifact) fails with the structured model-not-trained error (`FCGen.noModel`,
the caught `FileNotFoundError`) — a ModelNotFound error rather than
DataInsufficiency — and never with an unrelated exception. -/
theorem generate_forecast_sparse_user_fails_gracefully (txs : List Tx)
    (days : Nat) (h : spanDays txs < 7) :
    train_forecast_model none txs =
      FCTrain.errDict "Insufficient data for forecasting" ∧
    generate_forecast none txs days = FCGen.noModel := by
  exact ⟨train_forecast_span_lt_7_insufficient none txs h, rfl⟩

/-! ## Claims: forecast summary threshold reporting -/

theorem scanAux_both_some (fs : List Rat) :
    ∀ (i a b : Nat), scanThresholdsAux fs i (some a) (some b) = (some a, some b) := by
  induction fs with
  | nil => intro i a b; rfl
  | cons x rest ih =>
    intro i a b
    simp [scanThresholdsAux, ih]

theorem scanAux_low_some (fs : List Rat) :
    ∀ (i a : Nat), scanThresholdsAux fs i (some a) none =
      (some a, (firstBelow 500 fs).map (· + i)) := by
  induction fs with
  | nil => intro i a; rfl
  | cons x rest ih =>
    intro i a
    show scanThresholdsAux rest (i + 1)
        (if x < 1000 ∧ (some a : Option Nat) = none then some (i + 1) else some a)
        (if x < 500 ∧ (none : Option Nat) = none then some (i + 1) else none) =
      (some a, (firstBelow 500 (x :: rest)).map (· + i))
    rw [if_neg (by simp)]
    by_cases h5 : x < 500
    · rw [if_pos ⟨h5, rfl⟩, scanAux_both_some, firstBelow, if_pos h5]
      simp [Nat.add_comm]
    · rw [if_neg (by simp [h5]), ih, firstBelow, if_neg h5]
      cases hfb : firstBelow 500 rest with
      | none => simp
      | some d => simp; omega

theorem scanAux_none (fs : List Rat) :
    ∀ i : Nat, scanThresholdsAux fs i none none =
      ((firstBelow 1000 fs).map (· + i), (firstBelow 500 fs).map (· + i)) := by
  induction fs with
  | nil => intro i; rfl
  | cons x rest ih =>
    intro i
    show scanThresholdsAux rest (i + 1)
        (if x < 1000 ∧ (none : Option Nat) = none then some (i + 1) else none)
        (if x < 500 ∧ (none : Option Nat) = none then some (i + 1) else none) =
      ((firstBelow 1000 (x :: rest)).map (· + i),
       (firstBelow 500 (x :: rest)).map (· + i))
    by_cases h10 : x < 1000
    · by_cases h5 : x < 500
      · rw [if_pos ⟨h10, rfl⟩, if_pos ⟨h5, rfl⟩, scanAux_both_some,
          firstBelow, if_pos h10, firstBelow, if_pos h5]
        simp [Nat.add_comm]
      · rw [if_pos ⟨h10, rfl⟩, if_neg (by simp [h5]), scanAux_low_some,
          firstBelow, if_pos h10, firstBelow, if_neg h5]
        simp only [Prod.mk.injEq]
        constructor
        · simp [Nat.add_comm]
        · cases hfb : firstBelow 500 rest with
          | none => simp
          | some d => simp; omega
    · have h5 : ¬ x < 500 := fun h => h10 (h.trans (by norm_num))
      rw [if_neg (by simp [h10]), if_neg (by simp [h5]), ih,
        firstBelow, if_neg h10, firstBelow, if_neg h5]
      simp only [Prod.mk.injEq]
      constructor
      · cases hfb : firstBelow 1000 rest with
        | none => simp
        | some d => simp; omega
      · cases hfb : firstBelow 500 rest with
        | none => simp
        | some d => simp; omega

theorem scanThresholds_eq (fs : List Rat) :
    scanThresholds fs = (firstBelow 1000 fs, firstBelow 500 fs) := by
  rw [scanThresholds, scanAux_none]
  simp only [Prod.mk.injEq]
  constructor
  · cases firstBelow 1000 fs with
    | none => rfl
    | some d => simp
  · cases firstBelow 500 fs with
    | none => rfl
    | some d => simp

/-- C5 counterexample: with current balance 300 and forecast [400], the trend
is "increasing" (400 > 300) and a projected day falls below 500, yet the
generated summary contains no threshold warning at all — it only reports the
positive change — contradicting the claim that the first day below 500 is
always reported. -/
theorem forecast_summary_increasing_no_warning :
    (400 : Rat) < 500 ∧
    trendOf 300 400 = "increasing" ∧
    generate_forecast_summary 300 400 [400] (trendOf 300 400) =
      [SummaryPart.projectedIncrease 100 (100 / 3), SummaryPart.positiveTrend] ∧
    SummaryPart.criticalWarning 1 ∉
      generate_forecast_summary 300 400 [400] (trendOf 300 400) := by
  have ht : trendOf 300 400 = "increasing" := by
    rw [trendOf, if_pos (by norm_num)]
  have hs : generate_forecast_summary 300 400 [400] (trendOf 300 400) =
      [SummaryPart.projectedIncrease 100 (100 / 3), SummaryPart.positiveTrend] := by
    rw [ht, generate_forecast_summary]
    norm_num
    intro h
    exact absurd h (by decide)
  refine ⟨by norm_num, ht, hs, ?_⟩
  rw [hs]
  simp

/-- C5 (amended): the threshold reporting happens only in the
trend = "decreasing" branch of the summary. When decreasing, the summary is
the projected-change sentence followed by: the warning for the first projected
day below 500 if one exists (critical takes priority over low even if both
thresholds are crossed), else the caution for the first day below 1000 if one
exists, else the stable-above-1000 sentence. When the trend is "increasing"
the summary is the positive-change and positive-trend sentences, with no
threshold reporting even if projected days fall below the thresholds. -/
theorem forecast_summary_threshold_selection (c f : Rat) (fs : List Rat) :
    (generate_forecast_summary c f fs "decreasing" =
      SummaryPart.projectedDecrease |f - c| |if c ≠ 0 then (f - c) / c * 100 else 0| ::
        (match firstBelow 500 fs with
         | some d => [SummaryPart.criticalWarning d]
         | none =>
           match firstBelow 1000 fs with
           | some d => [SummaryPart.lowCaution d]
           | none => [SummaryPart.stableAbove1000])) ∧
    (generate_forecast_summary c f fs "increasing" =
      [SummaryPart.projectedIncrease (f - c) (if c ≠ 0 then (f - c) / c * 100 else 0),
       SummaryPart.positiveTrend]) := by
  constructor
  · rw [generate_forecast_summary]
    simp only [scanThresholds_eq, if_pos rfl, ite_true]
  · rw [generate_forecast_summary]
    simp only [if_neg (by decide : ¬("increasing" : String) = "decreasing")]

/-! ## Claims: recommendation rule filter -/

theorem byForecastSignal_iff (s : String) (p : Product) :
    (if needs_credit s then tagHas p ["credit", "loan", "budgeting"]
     else if has_surplus s then tagHas p ["investment", "savings", "high-yield"]
     else false) = true ↔
    ((needs_credit s = true ∧ tagHas p ["credit", "loan", "budgeting"] = true) ∨
     (needs_credit s = false ∧ has_surplus s = true ∧
      tagHas p ["investment", "savings", "high-yield"] = true)) := by
  cases hnc : needs_credit s <;> cases hhs : has_surplus s <;> simp [hnc, hhs]

theorem byClusterSignal_iff (uc : String) (p : Product) :
    (if uc = "Frugal Savers" then tagHas p ["low-fee", "savings", "conservative"]
     else if uc = "High-Value Transactors" then
       tagHas p ["premium", "rewards", "high-limit"]
     else if uc = "Average Spenders" then
       tagHas p ["standard", "balanced", "everyday"]
     else false) = true ↔
    ((uc = "Frugal Savers" ∧ tagHas p ["low-fee", "savings", "conservative"] = true) ∨
     (uc = "High-Value Transactors" ∧
      tagHas p ["premium", "rewards", "high-limit"] = true) ∨
     (uc = "Average Spenders" ∧
      tagHas p ["standard", "balanced", "everyday"] = true)) := by
  by_cases h1 : uc = "Frugal Savers"
  · subst h1
    simp [show ¬("Frugal Savers" : String) = "High-Value Transactors" from by decide,
      show ¬("Frugal Savers" : String) = "Average Spenders" from by decide]
  · by_cases h2 : uc = "High-Value Transactors"
    · subst h2
      simp [show ¬("High-Value Transactors" : String) = "Frugal Savers" from by decide,
        show ¬("High-Value Transactors" : String) = "Average Spenders" from by decide]
    · by_cases h3 : uc = "Average Spenders"
      · subst h3
        simp [show ¬("Average Spenders" : String) = "Frugal Savers" from by decide,
          show ¬("Average Spenders" : String) = "High-Value Transactors" from by decide]
      · simp [h1, h2, h3]

theorem byTargetSignal_iff (uc : String) (p : Product) :
    (match p.target_cluster with
     | some tc => tc ≠ "" && strContains (lowerStr tc) (lowerStr uc)
     | none => false) = true ↔
    (∃ tc, p.target_cluster = some tc ∧ tc ≠ "" ∧
      strContains (lowerStr tc) (lowerStr uc) = true) := by
  cases ht : p.target_cluster with
  | none => simp
  | some tc => simp [Bool.and_eq_true, decide_eq_true_eq]

theorem includeProduct_iff (uc s : String) (p : Product) :
    includeProduct uc s p = true ↔
    ((needs_credit s = true ∧ tagHas p ["credit", "loan", "budgeting"] = true) ∨
     (needs_credit s = false ∧ has_surplus s = true ∧
      tagHas p ["investment", "savings", "high-yield"] = true) ∨
     (uc = "Frugal Savers" ∧ tagHas p ["low-fee", "savings", "conservative"] = true) ∨
     (uc = "High-Value Transactors" ∧
      tagHas p ["premium", "rewards", "high-limit"] = true) ∨
     (uc = "Average Spenders" ∧
      tagHas p ["standard", "balanced", "everyday"] = true) ∨
     (∃ tc, p.target_cluster = some tc ∧ tc ≠ "" ∧
      strContains (lowerStr tc) (lowerStr uc) = true)) := by
  simp only [includeProduct, Bool.or_eq_true]
  rw [byForecastSignal_iff, byClusterSignal_iff, byTargetSignal_iff]
  simp only [or_assoc]

/-- C4 counterexample: with forecast summary "decreasing stable" (the shape the
code itself generates for a decreasing forecast that stays above 1000: it
contains both the decline keyword "decreasing" and the stability keyword
"stable"), a product tagged "savings" for segment "New/Infrequent Users" is
rejected by the rule filter even though the has-surplus signal and a
surplus tag are both present — the `elif` makes the surplus signal dead
whenever a decline keyword occurs, so the signals are not independent as
claimed. -/
theorem rule_filter_surplus_signal_shadowed :
    needs_credit "decreasing stable" = true ∧
    has_surplus "decreasing stable" = true ∧
    tagHas ⟨1, some "savings", none⟩ ["investment", "savings", "high-yield"] = true ∧
    includeProduct "New/Infrequent Users" "decreasing stable"
      ⟨1, some "savings", none⟩ = false ∧
    filter_products_by_rules [⟨1, some "savings", none⟩]
      "New/Infrequent Users" "decreasing stable" = [] := by
  refine ⟨by decide, by decide, by decide, by decide, by decide⟩

/-- C4 (amended): a product passes the rule filter iff (the summary contains a
decline/warning keyword AND the tags contain credit/loan/budgeting) OR (the
summary contains NO decline/warning keyword AND contains a growth/stability
keyword AND the tags contain investment/savings/high-yield) OR the tags match
the fixed per-segment keyword table OR the product's nonempty target-segment
hint contains the segment name case-insensitively; the surplus signal is
suppressed whenever the needs-credit signal fires (`elif`), so the first two
signals are not independent. If zero products pass, the pipeline falls back to
the entire unfiltered catalog. -/
theorem rule_filter_characterization (ps : List Product) (uc s : String)
    (p : Product) :
    (p ∈ filter_products_by_rules ps uc s ↔
      p ∈ ps ∧
      ((needs_credit s = true ∧ tagHas p ["credit", "loan", "budgeting"] = true) ∨
       (needs_credit s = false ∧ has_surplus s = true ∧
        tagHas p ["investment", "savings", "high-yield"] = true) ∨
       (uc = "Frugal Savers" ∧ tagHas p ["low-fee", "savings", "conservative"] = true) ∨
       (uc = "High-Value Transactors" ∧
        tagHas p ["premium", "rewards", "high-limit"] = true) ∨
       (uc = "Average Spenders" ∧
        tagHas p ["standard", "balanced", "everyday"] = true) ∨
       (∃ tc, p.target_cluster = some tc ∧ tc ≠ "" ∧
        strContains (lowerStr tc) (lowerStr uc) = true))) ∧
    (filter_products_by_rules ps uc s = [] → candidate_products ps uc s = ps) := by
  constructor
  · rw [filter_products_by_rules, List.mem_filter, includeProduct_iff]
  · intro h
    rw [candidate_products]
    simp [h]

/-! ## Claims: segmentation training on small customer sets -/

theorem fit_transform_length (sq : Rat → Rat) (rows : List (List Rat)) :
    (fit_transform sq rows).length = rows.length := by
  simp [fit_transform]

/-- C3 counterexample: on a customer set with a single customer (non-empty),
`KMeans(n_clusters=4).fit_predict` raises its n_samples < n_clusters
`ValueError`, which `train_cluster_model` does not catch — so the call does
not return a success result with cluster_count 4, contradicting the claim. -/
theorem train_cluster_single_customer_raises :
    train_cluster_model (fun x => x) 0 (fun _ => []) (fun _ _ => 0)
      [⟨1, []⟩] = PyResult.raised "n_samples should be >= n_clusters=4" := by
  decide

/-- C3 (amended): on a non-empty customer set with fewer than 4 customers,
`train_cluster_model` propagates the uncaught n_samples < n_clusters
`ValueError` from the KMeans fit instead of returning a success result;
a success result therefore requires at least 4 customers (and, when returned,
reports `n_clusters` as the number of distinct fitted labels and a
silhouette score computed only when scikit-learn's 2 ≤ labels ≤ n-1
validity check passes, rather than an unconditional count of 4). -/
theorem train_cluster_small_set_raises (sq : Rat → Rat) (now : Nat)
    (labelsFn : List (List Rat) → List Nat)
    (silFn : List (List Rat) → List Nat → Rat)
    (users : List UserRec) (h1 : users ≠ []) (h2 : users.length < 4) :
    train_cluster_model sq now labelsFn silFn users =
      PyResult.raised "n_samples should be >= n_clusters=4" := by
  have hne : ¬ (users.map (fun u =>
      (extract_features sq now u.txs).map Prod.snd)).isEmpty = true := by
    simp only [List.isEmpty_iff, List.map_eq_nil_iff]
    exact h1
  have hlt : (fit_transform sq (users.map (fun u =>
      (extract_features sq now u.txs).map Prod.snd))).length < 4 := by
    rw [fit_transform_length, List.length_map]
    exact h2
  simp only [train_cluster_model, kmeans_fit_predict]
  rw [if_neg hne, if_pos hlt]

/-! ## Concrete instantiations of the hypothesis-carrying theorems -/

theorem generate_forecast_sparse_user_witness :
    spanDays [⟨0, "Market", 0, 0, 100⟩] < 7 ∧
    train_forecast_model none [⟨0, "Market", 0, 0, 100⟩] =
      FCTrain.errDict "Insufficient data for forecasting" ∧
    generate_forecast none [⟨0, "Market", 0, 0, 100⟩] 30 = FCGen.noModel :=
  ⟨by decide,
   (generate_forecast_sparse_user_fails_gracefully
      [⟨0, "Market", 0, 0, 100⟩] 30 (by decide)).1,
   (generate_forecast_sparse_user_fails_gracefully
      [⟨0, "Market", 0, 0, 100⟩] 30 (by decide)).2⟩

theorem train_cluster_two_customers_witness :
    ([⟨1, []⟩, ⟨2, []⟩] : List UserRec) ≠ [] ∧
    ([⟨1, []⟩, ⟨2, []⟩] : List UserRec).length < 4 ∧
    train_cluster_model (fun x => x) 0 (fun _ => []) (fun _ _ => 0)
      [⟨1, []⟩, ⟨2, []⟩] = PyResult.raised "n_samples should be >= n_clusters=4" :=
  ⟨by decide, by decide,
   train_cluster_small_set_raises (fun x => x) 0 (fun _ => []) (fun _ _ => 0)
     [⟨1, []⟩, ⟨2, []⟩] (by decide) (by decide)⟩

theorem rule_filter_fallback_witness :
    filter_products_by_rules [⟨1, some "premium", none⟩] "Frugal Savers"
      "stable, positive outlook" = [] ∧
    candidate_products [⟨1, some "premium", none⟩] "Frugal Savers"
      "stable, positive outlook" = [⟨1, some "premium", none⟩] :=
  ⟨by decide,
   (rule_filter_characterization [⟨1, some "premium", none⟩] "Frugal Savers"
      "stable, positive outlook" ⟨1, some "premium", none⟩).2 (by decide)⟩

theorem trend_classification_witness :
    generate_forecast (some (fun _ => [200])) [⟨0, "Market", 0, 0, 100⟩] 1 =
      FCGen.ok 100 200 "increasing"
        [SummaryPart.projectedIncrease 100 100, SummaryPart.positiveTrend]
        [200] ∧
    "increasing" = trendOf 100 200 := by
  have hser : prepare_time_series [⟨0, "Market", 0, 0, 100⟩] = some [100] := rfl
  have ht : trendOf 100 200 = "increasing" := by
    rw [trendOf, if_pos (by norm_num)]
  have h : generate_forecast (some (fun _ => [200])) [⟨0, "Market", 0, 0, 100⟩] 1 =
      FCGen.ok 100 200 "increasing"
        [SummaryPart.projectedIncrease 100 100, SummaryPart.positiveTrend]
        [200] := by
    show (match prepare_time_series [⟨0, "Market", 0, 0, 100⟩] with
      | none => FCGen.noData
      | some series =>
        match series.getLast?, ((fun _ => [200]) 1 : List Rat).getLast? with
        | some current, some final =>
          FCGen.ok current final (trendOf current final)
            (generate_forecast_summary current final ((fun _ => [200]) 1)
              (trendOf current final)) ((fun _ => [200]) 1)
        | _, _ => FCGen.failed "Forecast generation failed: index out of range") = _
    rw [hser]
    show FCGen.ok 100 200 (trendOf 100 200)
        (generate_forecast_summary 100 200 [200] (trendOf 100 200)) [200] = _
    rw [ht, generate_forecast_summary]
    norm_num
    intro hbad
    exact absurd hbad (by decide)
  exact ⟨h, (trend_classification 100 200).2.2.2 _ _ _ _ _ _ h⟩

